import Mathlib

/-
Verification of the data-shaping contract of the Sparkify ETL pipeline
(src/etl.py).  The pipeline's dataframe transformations are embedded
relationally: a dataframe is a list of rows, `select` is `List.map`,
`filter` is `List.filter`, `dropDuplicates` is `List.dedup`, an inner
join is a filtered cross product, and an append-mode write is list
concatenation onto the stored table.  Numeric JSON values that the
pipeline only ever compares for exact equality (duration, length,
latitude, longitude) are modelled as `Rat`, which represents the JSON
decimal literals exactly; the pipeline applies no arithmetic to them,
so only their decidable equality matters.  A separate small model of
Python name resolution covers the unbound-name behaviour of
`process_log_data` (etl.py lines 91-131).
-/

namespace Etl

/-- Input song-metadata record, one JSON object per file
(etl.py line 38 reads them; the fields are the ones the pipeline selects). -/
structure SongRecord where
  song_id : String
  title : Option String
  artist_id : String
  year : Int
  duration : Option Rat
  artist_name : String
  artist_location : String
  artist_latitude : Option Rat
  artist_longitude : Option Rat
deriving DecidableEq, Repr

/-- Input activity-log record, one JSON object per line
(etl.py line 75 reads them; the fields are the ones the pipeline uses). -/
structure LogRecord where
  page : String
  userId : String
  firstName : String
  lastName : String
  gender : String
  level : String
  ts : Int
  song : Option String
  length : Option Rat
  sessionId : Int
  location : String
  userAgent : String
deriving DecidableEq, Repr

/-- Row of the songs table (etl.py lines 41-45). -/
structure SongsRow where
  song_id : String
  title : Option String
  artist_id : String
  year : Int
  duration : Option Rat
deriving DecidableEq, Repr

/-- Row of the artists table (etl.py lines 51-55). -/
structure ArtistsRow where
  artist_id : String
  artist_name : String
  artist_location : String
  artist_latitude : Option Rat
  artist_longitude : Option Rat
deriving DecidableEq, Repr

/-- Row of the users table (etl.py lines 81-85). -/
structure UsersRow where
  user_id : String
  first_name : String
  last_name : String
  gender : String
  level : String
deriving DecidableEq, Repr

/-- Row of the time table (etl.py lines 99-105). -/
structure TimeRow where
  start_time : Int
  hour : Int
  day : Int
  week : Int
  month : Int
  year : Int
  weekday : Int
deriving DecidableEq, Repr

/-- Row of the songplays table as selected at etl.py lines 117-126.
The `songplay_id` column added at line 128 is not part of this row type
because the result of that `withColumn` call is discarded (the dataframe
is immutable and the expression is not assigned); see `songplays_with_id`. -/
structure SongplaysRow where
  start_time : Int
  user_id : String
  level : String
  song_id : String
  artist_id : String
  session_id : Int
  location : String
  user_agent : String
  year : Int
  month : Int
deriving DecidableEq, Repr

/-! ### Timestamp derivation

`get_timestamp = udf(lambda d: datetime.fromtimestamp(d/1000.0), ...)`
(etl.py line 91) converts epoch milliseconds to a single point-in-time
value; every calendar field the pipeline records is then extracted from
the one `timestamp` column built from it (lines 92, 99-105, 125-126).
We model the point-in-time value as the instant itself (epoch
milliseconds, rendered in a fixed timezone taken to be UTC) and give
concrete extraction functions matching the proleptic Gregorian calendar
(days-to-civil conversion after Howard Hinnant's algorithm), Spark's
`dayofweek` convention (1 = Sunday .. 7 = Saturday) and ISO-8601
`weekofyear`. -/

/-- A point-in-time value: the instant, kept as epoch milliseconds. -/
structure Timestamp where
  ms : Int
deriving DecidableEq, Repr

/-- The timestamp conversion of etl.py line 91: epoch milliseconds to a
point-in-time value.  It is the single conversion both the time table
and the songplays year/month derivation go through. -/
def get_timestamp (ts : Int) : Timestamp := ⟨ts⟩

/-- Civil date (year, month, day) of a count of days since 1970-01-01. -/
def civilFromDays (z0 : Int) : Int × Int × Int :=
  let z := z0 + 719468
  let era := Int.fdiv z 146097
  let doe := z - era * 146097
  let yoe := Int.fdiv (doe - Int.fdiv doe 1460 + Int.fdiv doe 36524 - Int.fdiv doe 146096) 365
  let y := yoe + era * 400
  let doy := doe - (365 * yoe + Int.fdiv yoe 4 - Int.fdiv yoe 100)
  let mp := Int.fdiv (5 * doy + 2) 153
  let d := doy - Int.fdiv (153 * mp + 2) 5 + 1
  let m := mp + (if mp < 10 then 3 else -9)
  (if m ≤ 2 then y + 1 else y, m, d)

/-- Days since 1970-01-01 of a civil date (inverse of `civilFromDays`). -/
def daysFromCivil (y0 m d : Int) : Int :=
  let y := if m ≤ 2 then y0 - 1 else y0
  let era := Int.fdiv y 400
  let yoe := y - era * 400
  let mp := Int.emod (m + 9) 12
  let doy := Int.fdiv (153 * mp + 2) 5 + d - 1
  let doe := yoe * 365 + Int.fdiv yoe 4 - Int.fdiv yoe 100 + doy
  era * 146097 + doe - 719468

def msPerDay : Int := 86400000

def Timestamp.days (t : Timestamp) : Int := Int.fdiv t.ms msPerDay

def Timestamp.hourOf (t : Timestamp) : Int :=
  Int.fdiv (Int.emod t.ms msPerDay) 3600000

def Timestamp.yearOf (t : Timestamp) : Int := (civilFromDays t.days).1

def Timestamp.monthOf (t : Timestamp) : Int := (civilFromDays t.days).2.1

def Timestamp.dayOf (t : Timestamp) : Int := (civilFromDays t.days).2.2

/-- Spark `dayofweek` convention: 1 = Sunday .. 7 = Saturday
(1970-01-01, day 0, was a Thursday). -/
def Timestamp.weekdayOf (t : Timestamp) : Int := Int.emod (t.days + 4) 7 + 1

/-- ISO day-of-week (1 = Monday .. 7 = Sunday) used by `weekOf`. -/
def Timestamp.isoDow (t : Timestamp) : Int := Int.emod (t.days + 3) 7 + 1

/-- Number of ISO-8601 weeks in a year (52 or 53). -/
def isoWeeksInYear (y : Int) : Int :=
  let p := fun (x : Int) =>
    Int.emod (x + Int.fdiv x 4 - Int.fdiv x 100 + Int.fdiv x 400) 7
  if p y = 4 ∨ p (y - 1) = 3 then 53 else 52

/-- ISO-8601 `weekofyear` of the instant. -/
def Timestamp.weekOf (t : Timestamp) : Int :=
  let y := t.yearOf
  let doy := t.days - daysFromCivil y 1 1 + 1
  let w := Int.fdiv (doy - t.isoDow + 10) 7
  if w < 1 then isoWeeksInYear (y - 1)
  else if w > isoWeeksInYear y then 1
  else w

/-! ### The five table transformations (relational semantics) -/

/-- Filter of etl.py line 78: keep only NextSong actions. -/
def isNextSong (l : LogRecord) : Bool := l.page == "NextSong"

/-- The filtered log dataframe `df = df[df['page'] == 'NextSong']`. -/
def filteredLogs (logs : List LogRecord) : List LogRecord :=
  logs.filter isNextSong

/-- Column selection building a songs row (etl.py lines 41-45). -/
def songsSelect (r : SongRecord) : SongsRow :=
  ⟨r.song_id, r.title, r.artist_id, r.year, r.duration⟩

/-- The songs table: select then dropDuplicates (etl.py lines 41-45). -/
def songsTable (songData : List SongRecord) : List SongsRow :=
  (songData.map songsSelect).dedup

/-- Column selection building an artists row (etl.py lines 51-55). -/
def artistsSelect (r : SongRecord) : ArtistsRow :=
  ⟨r.artist_id, r.artist_name, r.artist_location, r.artist_latitude,
   r.artist_longitude⟩

/-- The artists table: select then dropDuplicates (etl.py lines 51-55). -/
def artistsTable (songData : List SongRecord) : List ArtistsRow :=
  (songData.map artistsSelect).dedup

/-- Column selection building a users row (etl.py lines 81-85). -/
def usersSelect (l : LogRecord) : UsersRow :=
  ⟨l.userId, l.firstName, l.lastName, l.gender, l.level⟩

/-- The users table: filter, select, dropDuplicates (etl.py lines 78, 81-85). -/
def usersTable (logs : List LogRecord) : List UsersRow :=
  ((filteredLogs logs).map usersSelect).dedup

/-- The time-table row derived from one log record (etl.py lines 99-105):
every calendar field is extracted from the single `timestamp` column
produced by `get_timestamp` at line 92. -/
def timeRowOf (l : LogRecord) : TimeRow :=
  let t := get_timestamp l.ts
  ⟨l.ts, t.hourOf, t.dayOf, t.weekOf, t.monthOf, t.yearOf, t.weekdayOf⟩

/-- The time table: filter, derive, dropDuplicates (etl.py lines 99-105). -/
def timeTable (logs : List LogRecord) : List TimeRow :=
  ((filteredLogs logs).map timeRowOf).dedup

/-- The join condition of etl.py lines 114-115:
`(df.song == song_df.title) & (df.length == song_df.duration)`.
Spark's `==` on a null operand yields NULL, which a join condition
treats as false, so a null on either side never matches. -/
def joinCond (l : LogRecord) (s : SongsRow) : Bool :=
  (match l.song, s.title with
   | some a, some b => a == b
   | _, _ => false) &&
  (match l.length, s.duration with
   | some a, some b => a == b
   | _, _ => false)

/-- The inner join of etl.py lines 114-115 followed by its
dropDuplicates: every (filtered log row, songs row) pair satisfying the
join condition.  `songsDir` is the content read back from
`<output>/songs/` at line 111. -/
def joinRows (logs : List LogRecord) (songsDir : List SongsRow) :
    List (LogRecord × SongsRow) :=
  ((filteredLogs logs).product songsDir).filter fun p => joinCond p.1 p.2

/-- Column selection building a songplays row from one joined pair
(etl.py lines 117-126); `year`/`month` come from the same `timestamp`
column, i.e. from `get_timestamp` applied to the pair's `ts`. -/
def songplaysSelect (p : LogRecord × SongsRow) : SongplaysRow :=
  let t := get_timestamp p.1.ts
  ⟨p.1.ts, p.1.userId, p.1.level, p.2.song_id, p.2.artist_id,
   p.1.sessionId, p.1.location, p.1.userAgent, t.yearOf, t.monthOf⟩

/-- The songplays table: join, dropDuplicates, select, dropDuplicates
(etl.py lines 114-126).  This is what line 131 writes. -/
def songplaysTable (logs : List LogRecord) (songsDir : List SongsRow) :
    List SongplaysRow :=
  (((joinRows logs songsDir).dedup).map songplaysSelect).dedup

/-- The expression of etl.py line 128:
`songplays_table.withColumn('songplay_id', monotonically_increasing_id())`.
Its value pairs each songplays row with a synthetic increasing id, but
the expression is not assigned to anything, so the table written at
line 131 is `songplaysTable`, without the id. -/
def songplays_with_id (logs : List LogRecord) (songsDir : List SongsRow) :
    List (Nat × SongplaysRow) :=
  (songplaysTable logs songsDir).enum

/-- Column names of the songplays table as written at line 131
(the aliases of the select at lines 117-126; line 128's added column is
absent because its result is discarded). -/
def songplaysWrittenColumns : List String :=
  ["start_time", "user_id", "level", "song_id", "artist_id",
   "session_id", "location", "user_agent", "year", "month"]

/-- Column names of the discarded line-128 expression's value. -/
def songplaysWithIdColumns : List String :=
  songplaysWrittenColumns ++ ["songplay_id"]

/-! ### Pipeline state and runs -/

/-- Contents of the five output locations under `<output>/`. -/
structure Store where
  songs : List SongsRow
  artists : List ArtistsRow
  users : List UsersRow
  time : List TimeRow
  songplays : List SongplaysRow
deriving DecidableEq, Repr

/-- A fresh output location. -/
def emptyStore : Store := ⟨[], [], [], [], []⟩

/-- One run's input data, already parsed from JSON. -/
structure Input where
  songData : List SongRecord
  logData : List LogRecord
deriving DecidableEq, Repr

/-- `process_song_data` (etl.py lines 24-58): append-mode writes of the
songs and artists tables. -/
def process_song_data (inp : Input) (st : Store) : Store :=
  { st with
    songs := st.songs ++ songsTable inp.songData
    artists := st.artists ++ artistsTable inp.songData }

/-- `process_log_data` (etl.py lines 61-131) as the transformation it
denotes: append-mode writes of users, time and songplays; the songplays
join reads `st.songs`, the current content of `<output>/songs/`
(line 111). -/
def process_log_data (inp : Input) (st : Store) : Store :=
  { st with
    users := st.users ++ usersTable inp.logData
    time := st.time ++ timeTable inp.logData
    songplays := st.songplays ++ songplaysTable inp.logData st.songs }

/-- `main` (etl.py lines 134-143): the song extractor runs, then the log
extractor runs against the store the song extractor produced. -/
def runPipeline (inp : Input) (st : Store) : Store :=
  process_log_data inp (process_song_data inp st)

/-! ### Storage-event trace of one run (for the ordering dependency) -/

/-- Observable storage events of one pipeline run. -/
inductive Ev
  | writeSongs (rows : List SongsRow)
  | writeArtists (rows : List ArtistsRow)
  | writeUsers (rows : List UsersRow)
  | writeTime (rows : List TimeRow)
  | readSongs (rows : List SongsRow)
  | writeSongplays (rows : List SongplaysRow)
deriving DecidableEq, Repr

/-- Storage events of `process_song_data`, in source-line order
(writes at etl.py lines 48 and 58). -/
def songTrace (inp : Input) : List Ev :=
  [.writeSongs (songsTable inp.songData),
   .writeArtists (artistsTable inp.songData)]

/-- Storage events of `process_log_data`, in source-line order (writes
at lines 88, 108, 131; the read of `<output>/songs/` at line 111). -/
def logTrace (inp : Input) (songsDir : List SongsRow) : List Ev :=
  [.writeUsers (usersTable inp.logData),
   .writeTime (timeTable inp.logData),
   .readSongs songsDir,
   .writeSongplays (songplaysTable inp.logData songsDir)]

/-- Storage events of one `main` run against store `st`: the song
extractor's trace, then the log extractor's trace; the songs directory
the log extractor reads holds whatever `st` held plus what the song
extractor appended (etl.py lines 142-143). -/
def mainTrace (inp : Input) (st : Store) : List Ev :=
  songTrace inp ++ logTrace inp (st.songs ++ songsTable inp.songData)

/-! ### Python name-resolution model for `process_log_data`

`process_log_data` is straight-line code: its statements execute
unconditionally, in order, for every input.  Each statement is recorded
with the module-level (global) names it evaluates and the output tables
it writes; evaluation aborts with an unbound-name error at the first
statement referencing a name the module never bound. -/

/-- The five output tables. -/
inductive Table
  | songs | artists | users | time | songplays
deriving DecidableEq, Repr

/-- One statement of `process_log_data`: its source line, the global
names its evaluation looks up (local variables excluded), and the
tables it writes. -/
structure Stmt where
  line : Nat
  refs : List String
  writes : List Table
deriving DecidableEq, Repr

/-- Names bound at module level in etl.py: the imports of lines 1-6 and
the module-level assignments/definitions. -/
def moduleBoundNames : List String :=
  ["configparser", "datetime", "os", "SparkSession", "udf", "col",
   "year", "month", "dayofmonth", "hour", "weekofyear", "date_format",
   "config", "create_spark_session", "process_song_data",
   "process_log_data", "main"]

/-- The statements of `process_log_data` (etl.py lines 72-131) in
order.  Lambda bodies are not evaluated at definition time, so a lambda
contributes no lookups; the second argument of each `udf(...)` call is
evaluated immediately. -/
def processLogDataStmts : List Stmt :=
  [⟨72, [], []⟩,
   ⟨75, [], []⟩,
   ⟨78, [], []⟩,
   ⟨81, [], []⟩,
   ⟨88, [], [.users]⟩,
   ⟨91, ["udf", "TimestampType"], []⟩,
   ⟨92, [], []⟩,
   ⟨95, ["udf", "DateType"], []⟩,
   ⟨96, [], []⟩,
   ⟨99, ["hour", "dayofmonth", "weekofyear", "month", "year",
         "dayofweek"], []⟩,
   ⟨108, [], [.time]⟩,
   ⟨111, [], []⟩,
   ⟨114, [], []⟩,
   ⟨117, ["year", "month"], []⟩,
   ⟨128, ["monotonically_increasing_id"], []⟩,
   ⟨131, [], [.songplays]⟩]

/-- Execute statements in order against the set of bound names,
accumulating performed writes; stop with the offending name and the
writes performed so far at the first unbound reference. -/
def runStmts (bound : List String) :
    List Stmt → List Table → Except (String × List Table) (List Table)
  | [], ws => .ok ws
  | st :: rest, ws =>
    match st.refs.find? (fun n => !bound.contains n) with
    | some n => .error (n, ws)
    | none => runStmts bound rest (ws ++ st.writes)

/-! ### Helper lemmas -/

lemma mem_joinRows {logs : List LogRecord} {sgs : List SongsRow}
    {p : LogRecord × SongsRow} :
    p ∈ joinRows logs sgs ↔
      p.1 ∈ filteredLogs logs ∧ p.2 ∈ sgs ∧ joinCond p.1 p.2 = true := by
  obtain ⟨l, s⟩ := p
  simp [joinRows, List.mem_filter, List.mem_product, and_assoc]

lemma mem_songplaysTable {logs : List LogRecord} {sgs : List SongsRow}
    {r : SongplaysRow} :
    r ∈ songplaysTable logs sgs ↔
      ∃ p, p ∈ joinRows logs sgs ∧ songplaysSelect p = r := by
  simp [songplaysTable, List.mem_dedup, List.mem_map]

lemma toFinset_congr {α : Type} [DecidableEq α] {X Y : List α}
    (h : ∀ a, a ∈ X ↔ a ∈ Y) : X.toFinset = Y.toFinset :=
  Finset.ext fun a => by simp only [List.mem_toFinset]; exact h a

/-- Two lists with the same members have dedup-map-dedup images of the
same length: the row count of a select-dropDuplicates stage depends
only on the set of input rows. -/
lemma dedup_map_dedup_length_congr {α β : Type} [DecidableEq α] [DecidableEq β]
    (f : α → β) (X Y : List α) (h : ∀ a, a ∈ X ↔ a ∈ Y) :
    ((X.dedup.map f).dedup).length = ((Y.dedup.map f).dedup).length := by
  have hcard : ∀ Z : List α,
      ((Z.dedup.map f).dedup).length = (Z.dedup.map f).toFinset.card :=
    fun Z => (List.card_toFinset _).symm
  rw [hcard X, hcard Y]
  congr 1
  refine toFinset_congr fun b => ?_
  simp only [List.mem_map, List.mem_dedup]
  exact ⟨fun ⟨a, ha, e⟩ => ⟨a, (h a).mp ha, e⟩,
         fun ⟨a, ha, e⟩ => ⟨a, (h a).mpr ha, e⟩⟩

/-- The songplays row count depends only on the set of rows in the
songs directory, not on their multiplicity or order. -/
lemma songplaysTable_length_congr (logs : List LogRecord)
    (S1 S2 : List SongsRow) (h : ∀ s, s ∈ S1 ↔ s ∈ S2) :
    (songplaysTable logs S1).length = (songplaysTable logs S2).length := by
  unfold songplaysTable
  refine dedup_map_dedup_length_congr songplaysSelect _ _ fun p => ?_
  rw [mem_joinRows, mem_joinRows]
  exact and_congr_right fun _ => and_congr_left fun _ => h p.2

/-- One run against a fresh output location. -/
lemma run_empty (inp : Input) :
    runPipeline inp emptyStore =
      ⟨songsTable inp.songData, artistsTable inp.songData,
       usersTable inp.logData, timeTable inp.logData,
       songplaysTable inp.logData (songsTable inp.songData)⟩ := by
  simp [runPipeline, process_song_data, process_log_data, emptyStore]

lemma filteredLogs_idem (logs : List LogRecord) :
    filteredLogs (filteredLogs logs) = filteredLogs logs := by
  simp [filteredLogs, List.filter_filter]

lemma filteredLogs_cons_neg {l : LogRecord} (h : isNextSong l = false)
    (logs : List LogRecord) :
    filteredLogs (l :: logs) = filteredLogs logs := by
  simp [filteredLogs, List.filter_cons_of_neg, h]

/-! ### Concrete inputs used by counterexamples and witnesses -/

/-- A NextSong log record whose play matches on (title, duration). -/
def rockLog : LogRecord :=
  ⟨"NextSong", "1", "F", "L", "F", "free", 1000000000000,
   some "Rock", some 200, 5, "NY", "UA"⟩

/-- Two distinct song records sharing the same (title, duration). -/
def rockSongs : List SongRecord :=
  [⟨"S1", some "Rock", "A1", 2000, some 200, "X", "NY", none, none⟩,
   ⟨"S2", some "Rock", "A2", 2001, some 200, "Y", "LA", none, none⟩]

/-- One NextSong play matched by two distinct songs rows. -/
def collisionInput : Input := ⟨rockSongs, [rockLog]⟩

/-- One song record and one matching NextSong play
(the end-to-end scenario of spec section 8). -/
def singleMatchInput : Input :=
  ⟨[⟨"S1", some "Rock", "A1", 2000, some 200, "X", "NY", none, none⟩],
   [rockLog]⟩

/-! ### Claims -/

/-- C1, counterexample: the claimed bound "number of songplays rows is
at most the number of NextSong log rows" fails on a concrete run: one
NextSong log row matched by two distinct songs rows (same title and
duration, different song_id) yields two songplays rows. -/
theorem c1_count_bound_counterexample :
    ¬ ((runPipeline collisionInput emptyStore).songplays.length ≤
       (filteredLogs collisionInput.logData).length) := by decide

/-- C1 (amended): for every run against a fresh output location, a
songplays row for a NextSong log row exists if and only if some songs
row has matching (title, duration), and the number of songplays rows is
at most the number of matching (NextSong log row, songs row) pairs
(which can exceed the number of NextSong log rows when one log row
matches several distinct songs rows). -/
theorem c1_songplays_join_contract (inp : Input) :
    ((runPipeline inp emptyStore).songplays.length ≤
      (joinRows inp.logData (songsTable inp.songData)).length) ∧
    ∀ l ∈ filteredLogs inp.logData,
      ((∃ s ∈ songsTable inp.songData, joinCond l s = true) ↔
       (∃ s ∈ songsTable inp.songData, joinCond l s = true ∧
          songplaysSelect (l, s) ∈ (runPipeline inp emptyStore).songplays)) := by
  rw [run_empty]
  constructor
  · calc ((((joinRows inp.logData (songsTable inp.songData)).dedup).map
            songplaysSelect).dedup).length
        ≤ (((joinRows inp.logData (songsTable inp.songData)).dedup).map
            songplaysSelect).length := (List.dedup_sublist _).length_le
      _ = ((joinRows inp.logData (songsTable inp.songData)).dedup).length :=
          List.length_map _ _
      _ ≤ (joinRows inp.logData (songsTable inp.songData)).length :=
          (List.dedup_sublist _).length_le
  · intro l hl
    constructor
    · rintro ⟨s, hs, hc⟩
      exact ⟨s, hs, hc,
        mem_songplaysTable.mpr ⟨(l, s), mem_joinRows.mpr ⟨hl, hs, hc⟩, rfl⟩⟩
    · rintro ⟨s, hs, hc, _⟩
      exact ⟨s, hs, hc⟩

/-- C1, witness: the amended contract applied to the concrete
two-songs-one-play run. -/
theorem c1_songplays_join_contract_w :
    (((runPipeline collisionInput emptyStore).songplays.length ≤
       (joinRows collisionInput.logData
         (songsTable collisionInput.songData)).length)) ∧
    ((∃ s ∈ songsTable collisionInput.songData, joinCond rockLog s = true) ↔
     (∃ s ∈ songsTable collisionInput.songData, joinCond rockLog s = true ∧
        songplaysSelect (rockLog, s) ∈
          (runPipeline collisionInput emptyStore).songplays)) :=
  ⟨(c1_songplays_join_contract collisionInput).1,
   (c1_songplays_join_contract collisionInput).2 rockLog (by decide)⟩

/-- C2: the songplays table written to `<output>/songplays/` does not
carry a songplay_id column.  Line 128 of etl.py computes
`songplays_table.withColumn('songplay_id', monotonically_increasing_id())`
but discards the result (it is not assigned), so line 131 writes the
table selected at lines 117-126, whose columns do not include
songplay_id — contradicting the code's own schema comment at line 113.
Evaluated at the single-match input: the run produces one songplays
row, the discarded line-128 value does pair it with id 0, and the
written column list lacks songplay_id. -/
theorem c2_songplay_id_not_persisted :
    "songplay_id" ∉ songplaysWrittenColumns ∧
    "songplay_id" ∈ songplaysWithIdColumns ∧
    (runPipeline singleMatchInput emptyStore).songplays.length = 1 ∧
    (songplays_with_id singleMatchInput.logData
        (songsTable singleMatchInput.songData)).map Prod.fst = [0] := by
  refine ⟨by decide, by decide, by decide, by decide⟩

/-- C3: for every input, the execution model of `process_log_data`
aborts with an unbound-name error on "TimestampType" (etl.py line 91)
having performed only the users write; TimestampType, DateType,
dayofweek and monotonically_increasing_id are all referenced by its
statements and all absent from the module's bound names; the time and
songplays writes are not among the performed writes, so the log
extractor can never complete.  The statement list is straight-line
code, so execution does not depend on the input. -/
theorem c3_process_log_data_name_error (_inp : Input) :
    runStmts moduleBoundNames processLogDataStmts [] =
      .error ("TimestampType", [Table.users]) ∧
    "TimestampType" ∉ moduleBoundNames ∧
    "DateType" ∉ moduleBoundNames ∧
    "dayofweek" ∉ moduleBoundNames ∧
    "monotonically_increasing_id" ∉ moduleBoundNames ∧
    (∃ st ∈ processLogDataStmts, "TimestampType" ∈ st.refs) ∧
    (∃ st ∈ processLogDataStmts, "DateType" ∈ st.refs) ∧
    (∃ st ∈ processLogDataStmts, "dayofweek" ∈ st.refs) ∧
    (∃ st ∈ processLogDataStmts, "monotonically_increasing_id" ∈ st.refs) ∧
    Table.time ∉ [Table.users] ∧ Table.songplays ∉ [Table.users] := by
  refine ⟨rfl, by decide, by decide, by decide, by decide, by decide,
    by decide, by decide, by decide, by decide, by decide⟩

/-- C4: running the pipeline twice in succession against the same
(initially fresh) output location yields exactly twice the row count in
each of the five output tables, because every write is append-mode and
each run recomputes the same rows; in particular the second run's
songplays row count is unchanged by the doubled songs directory it
reads back, since dropDuplicates makes the count depend only on the set
of songs rows. -/
theorem c4_two_runs_double_row_counts (inp : Input) :
    (runPipeline inp (runPipeline inp emptyStore)).songs.length =
      2 * (runPipeline inp emptyStore).songs.length ∧
    (runPipeline inp (runPipeline inp emptyStore)).artists.length =
      2 * (runPipeline inp emptyStore).artists.length ∧
    (runPipeline inp (runPipeline inp emptyStore)).users.length =
      2 * (runPipeline inp emptyStore).users.length ∧
    (runPipeline inp (runPipeline inp emptyStore)).time.length =
      2 * (runPipeline inp emptyStore).time.length ∧
    (runPipeline inp (runPipeline inp emptyStore)).songplays.length =
      2 * (runPipeline inp emptyStore).songplays.length := by
  rw [run_empty]
  have hsp : (songplaysTable inp.logData
        (songsTable inp.songData ++ songsTable inp.songData)).length =
      (songplaysTable inp.logData (songsTable inp.songData)).length :=
    songplaysTable_length_congr inp.logData _ _
      (fun s => by simp [List.mem_append])
  simp only [runPipeline, process_song_data, process_log_data,
    List.length_append, hsp]
  omega

/-- C5: for a fixed ts, every calendar field recorded in a time-table
row is the extraction of that field from the single point-in-time value
`get_timestamp ts`, the year and month of every songplays row come from
the same conversion, and consequently a time row and a songplays row
with the same start_time always agree on year and month: the two
computation paths never diverge. -/
theorem c5_timestamp_derivation_consistent (logs : List LogRecord)
    (sgs : List SongsRow) :
    (∀ r ∈ timeTable logs,
       r.hour = (get_timestamp r.start_time).hourOf ∧
       r.day = (get_timestamp r.start_time).dayOf ∧
       r.week = (get_timestamp r.start_time).weekOf ∧
       r.month = (get_timestamp r.start_time).monthOf ∧
       r.year = (get_timestamp r.start_time).yearOf ∧
       r.weekday = (get_timestamp r.start_time).weekdayOf) ∧
    (∀ p ∈ songplaysTable logs sgs,
       p.year = (get_timestamp p.start_time).yearOf ∧
       p.month = (get_timestamp p.start_time).monthOf) ∧
    (∀ r ∈ timeTable logs, ∀ p ∈ songplaysTable logs sgs,
       p.start_time = r.start_time → p.year = r.year ∧ p.month = r.month) := by
  have htime : ∀ r ∈ timeTable logs,
      r.hour = (get_timestamp r.start_time).hourOf ∧
      r.day = (get_timestamp r.start_time).dayOf ∧
      r.week = (get_timestamp r.start_time).weekOf ∧
      r.month = (get_timestamp r.start_time).monthOf ∧
      r.year = (get_timestamp r.start_time).yearOf ∧
      r.weekday = (get_timestamp r.start_time).weekdayOf := by
    intro r hr
    rw [timeTable, List.mem_dedup, List.mem_map] at hr
    obtain ⟨l, _, rfl⟩ := hr
    exact ⟨rfl, rfl, rfl, rfl, rfl, rfl⟩
  have hplays : ∀ p ∈ songplaysTable logs sgs,
      p.year = (get_timestamp p.start_time).yearOf ∧
      p.month = (get_timestamp p.start_time).monthOf := by
    intro p hp
    obtain ⟨q, _, rfl⟩ := mem_songplaysTable.mp hp
    exact ⟨rfl, rfl⟩
  refine ⟨htime, hplays, fun r hr p hp hst => ?_⟩
  obtain ⟨h1, h2⟩ := hplays p hp
  obtain ⟨_, _, _, h4, h5, _⟩ := htime r hr
  rw [h1, h2, h4, h5, hst]
  exact ⟨rfl, rfl⟩

/-- C5, witness: the consistency applied to the concrete matched run:
the time row and songplays row for ts = 1000000000000 agree on year and
month. -/
theorem c5_timestamp_derivation_consistent_w :
    (songplaysSelect (rockLog, songsSelect
        ⟨"S1", some "Rock", "A1", 2000, some 200, "X", "NY", none, none⟩)).year
      = (timeRowOf rockLog).year ∧
    (songplaysSelect (rockLog, songsSelect
        ⟨"S1", some "Rock", "A1", 2000, some 200, "X", "NY", none, none⟩)).month
      = (timeRowOf rockLog).month :=
  (c5_timestamp_derivation_consistent singleMatchInput.logData
      (songsTable singleMatchInput.songData)).2.2
    (timeRowOf rockLog) (by decide)
    (songplaysSelect (rockLog, songsSelect
        ⟨"S1", some "Rock", "A1", 2000, some 200, "X", "NY", none, none⟩))
    (by decide) (by decide)

/-- C6: deduplication is exact full-row equality over the selected
columns, shown for the songs and users tables: every input record's
selected row is present in the output (so two records with differing
selected rows yield two distinct output rows), and each table is
duplicate-free with each selected row occurring exactly once (so
records identical in all selected columns collapse to one row). -/
theorem c6_dedup_exact_row_equality (songData : List SongRecord)
    (logs : List LogRecord) (r1 r2 : SongRecord) (l1 : LogRecord)
    (h1 : r1 ∈ songData) (h2 : r2 ∈ songData)
    (hl1 : l1 ∈ filteredLogs logs) :
    (songsTable songData).Nodup ∧
    songsSelect r1 ∈ songsTable songData ∧
    songsSelect r2 ∈ songsTable songData ∧
    (songsTable songData).count (songsSelect r1) = 1 ∧
    (usersTable logs).Nodup ∧
    usersSelect l1 ∈ usersTable logs ∧
    (usersTable logs).count (usersSelect l1) = 1 := by
  have hm1 : songsSelect r1 ∈ songsTable songData := by
    rw [songsTable, List.mem_dedup, List.mem_map]; exact ⟨r1, h1, rfl⟩
  have hm2 : songsSelect r2 ∈ songsTable songData := by
    rw [songsTable, List.mem_dedup, List.mem_map]; exact ⟨r2, h2, rfl⟩
  have hu1 : usersSelect l1 ∈ usersTable logs := by
    rw [usersTable, List.mem_dedup, List.mem_map]; exact ⟨l1, hl1, rfl⟩
  exact ⟨List.nodup_dedup _, hm1, hm2,
    List.count_eq_one_of_mem (List.nodup_dedup _) hm1,
    List.nodup_dedup _, hu1,
    List.count_eq_one_of_mem (List.nodup_dedup _) hu1⟩

/-- C6, witness: the dedup contract applied to the two-songs input and
the single NextSong log row: the two songs rows (differing in song_id)
are both present, and each appears exactly once. -/
theorem c6_dedup_exact_row_equality_w :
    (songsTable rockSongs).Nodup ∧
    songsSelect ⟨"S1", some "Rock", "A1", 2000, some 200, "X", "NY",
        none, none⟩ ∈ songsTable rockSongs ∧
    songsSelect ⟨"S2", some "Rock", "A2", 2001, some 200, "Y", "LA",
        none, none⟩ ∈ songsTable rockSongs ∧
    (songsTable rockSongs).count (songsSelect
        ⟨"S1", some "Rock", "A1", 2000, some 200, "X", "NY", none, none⟩) = 1 ∧
    (usersTable [rockLog]).Nodup ∧
    usersSelect rockLog ∈ usersTable [rockLog] ∧
    (usersTable [rockLog]).count (usersSelect rockLog) = 1 :=
  c6_dedup_exact_row_equality rockSongs [rockLog] _ _ rockLog
    (by decide) (by decide) (by decide)

/-- Two song records with the same artist_id but different locations:
full-row dedup keeps both artists rows. -/
def sameArtistSongs : List SongRecord :=
  [⟨"S1", some "T1", "A1", 2000, some 100, "X", "NY", none, none⟩,
   ⟨"S2", some "T2", "A1", 2001, some 150, "X", "LA", none, none⟩]

/-- C7, counterexample: artist_id is not unique in the artists table:
two song records with the same artist_id but different
artist_location survive full-row deduplication as two distinct rows. -/
theorem c7_artist_id_unique_counterexample :
    ¬ (∀ a ∈ artistsTable sameArtistSongs, ∀ b ∈ artistsTable sameArtistSongs,
        a.artist_id = b.artist_id → a = b) := by decide

/-- C7 (amended): after deduplication each full artists row (the
five-column tuple) appears in at most one position of the artists
table; artist_id alone may repeat across rows whose other attributes
differ. -/
theorem c7_artists_rows_distinct (songData : List SongRecord)
    (a : ArtistsRow) :
    (artistsTable songData).Nodup ∧ (artistsTable songData).count a ≤ 1 :=
  ⟨List.nodup_dedup _, List.nodup_iff_count_le_one.mp (List.nodup_dedup _) a⟩

/-- C8: the users, time and songplays tables are derived only from
NextSong log records: each table is unchanged when the log input is
replaced by its NextSong-only restriction, and prepending a log record
whose page is not "NextSong" leaves all three tables unchanged. -/
theorem c8_only_nextsong_contributes (logs : List LogRecord)
    (sgs : List SongsRow) (l : LogRecord) (h : isNextSong l = false) :
    usersTable (filteredLogs logs) = usersTable logs ∧
    timeTable (filteredLogs logs) = timeTable logs ∧
    songplaysTable (filteredLogs logs) sgs = songplaysTable logs sgs ∧
    usersTable (l :: logs) = usersTable logs ∧
    timeTable (l :: logs) = timeTable logs ∧
    songplaysTable (l :: logs) sgs = songplaysTable logs sgs := by
  refine ⟨?_, ?_, ?_, ?_, ?_, ?_⟩
  · rw [usersTable, usersTable, filteredLogs_idem]
  · rw [timeTable, timeTable, filteredLogs_idem]
  · rw [songplaysTable, songplaysTable, joinRows, joinRows, filteredLogs_idem]
  · rw [usersTable, usersTable, filteredLogs_cons_neg h]
  · rw [timeTable, timeTable, filteredLogs_cons_neg h]
  · rw [songplaysTable, songplaysTable, joinRows, joinRows,
      filteredLogs_cons_neg h]

/-- A log record whose page is not "NextSong". -/
def homeLog : LogRecord :=
  ⟨"Home", "2", "G", "M", "M", "paid", 1000000000000,
   some "Rock", some 200, 6, "SF", "UA"⟩

/-- C8, witness: prepending a page == "Home" record to the concrete
matched run's log changes none of the three derived tables. -/
theorem c8_only_nextsong_contributes_w :
    usersTable (filteredLogs [rockLog]) = usersTable [rockLog] ∧
    timeTable (filteredLogs [rockLog]) = timeTable [rockLog] ∧
    songplaysTable (filteredLogs [rockLog]) (songsTable rockSongs) =
      songplaysTable [rockLog] (songsTable rockSongs) ∧
    usersTable (homeLog :: [rockLog]) = usersTable [rockLog] ∧
    timeTable (homeLog :: [rockLog]) = timeTable [rockLog] ∧
    songplaysTable (homeLog :: [rockLog]) (songsTable rockSongs) =
      songplaysTable [rockLog] (songsTable rockSongs) :=
  c8_only_nextsong_contributes [rockLog] (songsTable rockSongs) homeLog
    (by decide)

/-- C9: in the storage-event trace of one `main` run, the song
extractor's write of the songs table (trace position 0) strictly
precedes the log extractor's read of `<output>/songs/` (trace position
4), and the content that read returns is the store's prior songs
content plus exactly the rows the song extractor wrote; against a fresh
output location the join therefore consumes exactly the rows the song
extractor wrote, and the songplays subsequently written are computed
from them. -/
theorem c9_songs_write_precedes_read (inp : Input) (st : Store) :
    ((0 : Nat) < 4 ∧
     (mainTrace inp st)[0]? = some (.writeSongs (songsTable inp.songData)) ∧
     (mainTrace inp st)[4]? =
       some (.readSongs (st.songs ++ songsTable inp.songData))) ∧
    (mainTrace inp emptyStore)[4]? =
      some (.readSongs (songsTable inp.songData)) ∧
    (mainTrace inp emptyStore)[5]? =
      some (.writeSongplays
        (songplaysTable inp.logData (songsTable inp.songData))) := by
  exact ⟨⟨by decide, rfl, rfl⟩, rfl, rfl⟩

/-- C10: a NextSong log record whose song field or length field is null
never satisfies the join condition against any songs row — including a
songs row with a null title or null duration — so no joined pair, and
hence no songplays row, is produced from that record. -/
theorem c10_null_fields_never_join (l : LogRecord)
    (h : l.song = none ∨ l.length = none) :
    (∀ s : SongsRow, joinCond l s = false) ∧
    (∀ (logs : List LogRecord) (sgs : List SongsRow)
       (p : LogRecord × SongsRow), p ∈ joinRows logs sgs → p.1 ≠ l) ∧
    (∀ (logs : List LogRecord) (sgs : List SongsRow) (s : SongsRow),
       (l, s) ∉ joinRows logs sgs) := by
  have hcond : ∀ s : SongsRow, joinCond l s = false := by
    intro s
    rcases h with h | h <;> simp [joinCond, h]
  have hpair : ∀ (logs : List LogRecord) (sgs : List SongsRow)
      (p : LogRecord × SongsRow), p ∈ joinRows logs sgs → p.1 ≠ l := by
    intro logs sgs p hp heq
    have := (mem_joinRows.mp hp).2.2
    rw [heq, hcond p.2] at this
    exact Bool.false_ne_true this
  exact ⟨hcond, hpair, fun logs sgs s hp => hpair logs sgs (l, s) hp rfl⟩

/-- A NextSong log record with a null song title. -/
def nullSongLog : LogRecord :=
  ⟨"NextSong", "3", "H", "N", "F", "free", 1000000000000,
   none, some 200, 7, "LA", "UA"⟩

/-- A songs row with a null title and null duration. -/
def nullTitleSongsRow : SongsRow := ⟨"S9", none, "A9", 1999, none⟩

/-- C10, witness: the null-song record joins with nothing, in
particular not with the null-title songs row, and produces no joined
pair when both are present. -/
theorem c10_null_fields_never_join_w :
    joinCond nullSongLog nullTitleSongsRow = false ∧
    (nullSongLog, nullTitleSongsRow) ∉
      joinRows [nullSongLog] [nullTitleSongsRow] :=
  ⟨(c10_null_fields_never_join nullSongLog (Or.inl rfl)).1 nullTitleSongsRow,
   (c10_null_fields_never_join nullSongLog (Or.inl rfl)).2.2
     [nullSongLog] [nullTitleSongsRow] nullTitleSongsRow⟩

end Etl
